import Mathlib

/-!
Verification development for the CSV transformer module
(src/modules/cv_transformer.py, class CVTransformer).

The Python code is shallowly embedded over `List Char` strings and a
`DataFrame` record of column labels and row-major cell lists.  All
definitions are executable structural recursions, so concrete runs of the
embedded code reduce with `decide`.

Modelling conventions, matching the source:
- a Python `str` is a `Str := List Char`; string literals appear as
  `"...".data`, which the kernel evaluates;
- a pandas cell or column label is an `Option Str`; `none` models the
  missing-value marker `NaN`/`NaT` (pandas read_csv produces `NaN` for
  empty cells, and column labels promoted from data can be `NaN`);
- a loaded `pd.read_csv` frame is a `DataFrame`: column labels plus
  row-major cells, carrying the implicit ascending RangeIndex 0..n-1
  positionally (row k of the list is the row with index label k);
- Python exceptions become `Except PyError`, and the two run-level
  errors of `transform_all_files` become `Except DriverError`.
-/

deriving instance DecidableEq for Except

/-- A Python string, as its character sequence. -/
abbrev Str := List Char

/-- A pandas cell or column label; `none` is the NaN/NaT missing marker. -/
abbrev Cell := Option Str

/-- Exceptions raised inside per-file processing: ValueError (failed int or
date parse, column length mismatch, bad to_datetime argument) and
IndexError (out-of-range positional access). -/
inductive PyError
  | valueError
  | indexError
  deriving DecidableEq, Repr

/-- Run-level exceptions of transform_all_files: FileNotFoundError when no
CSV file is discovered, ValueError when no file transforms successfully. -/
inductive DriverError
  | fileNotFoundError
  | valueError
  deriving DecidableEq, Repr

/-- Python `s.split(sep)` for the three-character separator " - ", scanning
left to right for non-overlapping occurrences, as used on filenames. -/
def splitDash : Str → List Str
  | [] => [[]]
  | ' ' :: '-' :: ' ' :: rest => [] :: splitDash rest
  | c :: rest =>
      match splitDash rest with
      | r :: rs => (c :: r) :: rs
      | [] => [[c]]

/-- Python `s.split(sep)` for a single-character separator: consecutive
separators yield empty fields, and the result is never the empty list. -/
def splitChar (sep : Char) : Str → List Str
  | [] => [[]]
  | c :: rest =>
      if c = sep then [] :: splitChar sep rest
      else
        match splitChar sep rest with
        | r :: rs => (c :: r) :: rs
        | [] => [[c]]

/-- ASCII whitespace stripped by Python int() around a numeral. -/
def isPyWs (c : Char) : Bool :=
  c = ' ' || c = '\t' || c = '\n' || c = '\r' || c = '\x0b' || c = '\x0c'

/-- Python `s.strip()` over ASCII whitespace. -/
def pyStrip (s : Str) : Str :=
  ((s.dropWhile isPyWs).reverse.dropWhile isPyWs).reverse

/-- Digit run accepted by Python int() after the optional sign: nonempty,
digits with single underscores allowed strictly between digits. -/
def goodDigits : Str → Bool
  | [] => false
  | [c] => c.isDigit
  | c :: c2 :: rest =>
      c.isDigit && (if c2 = '_' then goodDigits rest else goodDigits (c2 :: rest))

/-- Value of a digit run, skipping grouping underscores. -/
def digitsVal (s : Str) : Nat :=
  s.foldl (fun a c => if c = '_' then a else a * 10 + (c.toNat - 48)) 0

/-- Python `int(s)` on a decimal string: strips surrounding whitespace,
allows one sign, then a digit run; `none` models the raised ValueError.
(Non-ASCII digits accepted by CPython do not occur in the inputs here.) -/
def pyInt (s : Str) : Option Int :=
  match pyStrip s with
  | '+' :: rest => if goodDigits rest then some (digitsVal rest) else none
  | '-' :: rest => if goodDigits rest then some (-(digitsVal rest : Int)) else none
  | t => if goodDigits t then some (digitsVal t) else none

/-- The month_map dict literal of extract_month_year_from_filename, in
source order.  The key "May" appears twice with the same value, so the
dict (last write wins) agrees with association-list lookup (first found). -/
def month_map : List (Str × Int) :=
  [("Jan".data, 1), ("Feb".data, 2), ("Mar".data, 3), ("Apr".data, 4),
   ("May".data, 5), ("Jun".data, 6), ("Jul".data, 7), ("Aug".data, 8),
   ("Sep".data, 9), ("Oct".data, 10), ("Nov".data, 11), ("Dec".data, 12),
   ("January".data, 1), ("February".data, 2), ("March".data, 3),
   ("April".data, 4), ("May".data, 5), ("June".data, 6), ("July".data, 7),
   ("August".data, 8), ("September".data, 9), ("October".data, 10),
   ("November".data, 11), ("December".data, 12)]

/-- CVTransformer.extract_month_year_from_filename.  Splits the filename on
" - "; with at least 4 parts it takes part 3, splits it on single spaces,
reads token 0 as year_part and token 1 as month_part (raising IndexError
when token 1 is absent), looks month_part up in month_map with default 1,
and converts year_part with int() (raising ValueError on failure);
otherwise it returns the defaults (1, 2025). -/
def extract_month_year_from_filename (filename : Str) : Except PyError (Int × Int) :=
  match splitDash filename with
  | _ :: _ :: _ :: seg :: _ =>
      let toks := splitChar ' ' seg
      let year_part := toks.headD []
      match toks[1]? with
      | none => .error .indexError
      | some month_part =>
          let month : Int := (month_map.lookup month_part).getD 1
          match pyInt year_part with
          | none => .error .valueError
          | some year => .ok (month, year)
  | _ => .ok (1, 2025)

/-- A loaded pandas frame: column labels and row-major cells. Loaded frames
are rectangular (every row has one cell per column) and carry the implicit
ascending RangeIndex positionally. -/
structure DataFrame where
  cols : List Cell
  rows : List (List Cell)
  deriving DecidableEq, Repr

/-- Lowercasing of one character as Python str.lower does on ASCII
(non-ASCII uppercase letters do not occur in the column names here). -/
def pyLowerChar (c : Char) : Char :=
  if 65 ≤ c.toNat ∧ c.toNat ≤ 90 then Char.ofNat (c.toNat + 32) else c

/-- Space-to-underscore step of the column cleaning. -/
def spaceToUnderscore (c : Char) : Char :=
  if c = ' ' then '_' else c

/-- The characters removed by str.replace with the regex class of plus,
hyphen, dot and slash. -/
def strippedChars : List Char := ['+', '-', '.', '/']

/-- The three chained column-name cleaning steps of transform_csv:
str.lower, then str.replace of space by underscore, then removal of the
characters plus, hyphen, dot, slash. -/
def clean_column_name (s : Str) : Str :=
  ((s.map pyLowerChar).map spaceToUnderscore).filter (fun c => !(strippedChars.contains c))

/-- The renames dict of transform_csv, applied to one column label before
cleaning; NaN labels are left alone, as pandas rename does. -/
def rename_label (c : Cell) : Cell :=
  match c with
  | some s =>
      if s = "Cost Growth".data then some "Cost Digital".data
      else if s = "Cost Marketing ".data then some "Cost offline ".data
      else some s
  | none => none

/-- Column cleaning lifted to a label: pandas Index.str operations map NaN
labels to NaN. -/
def clean_label (c : Cell) : Cell := c.map clean_column_name

/-- Full English month names recognised by the strptime directive for the
month name, lowercased for its case-insensitive match. -/
def strptime_month_names : List (Str × Nat) :=
  [("january".data, 1), ("february".data, 2), ("march".data, 3),
   ("april".data, 4), ("may".data, 5), ("june".data, 6), ("july".data, 7),
   ("august".data, 8), ("september".data, 9), ("october".data, 10),
   ("november".data, 11), ("december".data, 12)]

/-- Day field of strptime: one or two digits with value 1 to 31. -/
def parseDayToken (tok : Str) : Option Nat :=
  if tok ≠ [] ∧ tok.length ≤ 2 ∧ tok.all Char.isDigit then
    let v := digitsVal tok
    if 1 ≤ v ∧ v ≤ 31 then some v else none
  else none

/-- Month lengths of the strptime default year 1900 (not a leap year),
used by to_datetime to validate the day of month. -/
def daysInMonth1900 (m : Nat) : Nat :=
  [31, 28, 31, 30, 31, 30, 31, 31, 30, 31, 30, 31].getD (m - 1) 0

/-- One cell of pd.to_datetime with the format of month name then day:
the string must be a month name, one separating space, and a valid day.
(The strptime quirk that a literal format space matches a whitespace run
is not modelled; single spaces are what the day labels contain.) -/
def parseMonthDay (s : Str) : Option (Nat × Nat) :=
  match splitChar ' ' s with
  | [mtok, dtok] =>
      match strptime_month_names.lookup (mtok.map pyLowerChar), parseDayToken dtok with
      | some m, some d => if d ≤ daysInMonth1900 m then some (m, d) else none
      | _, _ => none
  | _ => none

/-- Two-digit zero padding of strftime month and day fields. -/
def pad2 (n : Nat) : Str :=
  if n < 10 then '0' :: (Nat.toDigits 10 n) else Nat.toDigits 10 n

/-- Decimal rendering of the year interpolated into the strftime format
string by the f-string of transform_csv. -/
def showInt (y : Int) : Str :=
  if y < 0 then '-' :: Nat.toDigits 10 y.natAbs else Nat.toDigits 10 y.natAbs

/-- The emitted report_day string: the inferred year as interpolated text,
then the strftime month and day of the parsed date. -/
def formatReportDay (year : Int) (m d : Nat) : Str :=
  showInt year ++ ('-' :: pad2 m) ++ ('-' :: pad2 d)

/-- One report_day cell through to_datetime then strftime: NaN passes
through as NaT and is rendered as a missing value again; a string cell
must parse under the month-name-day format or the whole column conversion
raises. -/
def convertReportDayCell (year : Int) (c : Cell) : Option Cell :=
  match c with
  | none => some none
  | some s =>
      match parseMonthDay s with
      | some md => some (some (formatReportDay year md.1 md.2))
      | none => none

/-- The whole report_day column through to_datetime and strftime; any
unparsable cell fails the conversion (errors raise by default). -/
def convert_report_day (year : Int) : List Cell → Option (List Cell)
  | [] => some []
  | c :: cs =>
      match convertReportDayCell year c, convert_report_day year cs with
      | some c2, some cs2 => some (c2 :: cs2)
      | _, _ => none

/-- Stable insertion into a list of index-keyed rows, ordered by key. -/
def insertByIdx (x : Nat × List Cell) : List (Nat × List Cell) → List (Nat × List Cell)
  | [] => [x]
  | y :: ys => if x.1 ≤ y.1 then x :: y :: ys else y :: insertByIdx x ys

/-- Insertion sort of index-keyed rows by key. -/
def sortByIdx : List (Nat × List Cell) → List (Nat × List Cell)
  | [] => []
  | x :: xs => insertByIdx x (sortByIdx xs)

/-- df.sort_index() on a loaded frame: orders the rows by their RangeIndex
labels 0..n-1 (carried positionally), which are already ascending. -/
def sort_index_rows (rows : List (List Cell)) : List (List Cell) :=
  (sortByIdx (rows.enum)).map (fun p => p.2)

/-- df.transpose(): row i of the result collects cell i of every original
row, so former columns become rows; the transposed frame has one row per
original column and one column per original row. The fresh labels the
transpose gives its columns are overwritten on the next source line
before being read, so they are not materialised here. -/
def transpose_rows (ncols : Nat) (rows : List (List Cell)) : List (List Cell) :=
  (List.range ncols).map (fun i => rows.map (fun r => r.getD i none))

/-- The six placeholder column names added at the end of transform_csv, in
source order. -/
def placeholder_columns : List Str :=
  ["new_install_first_dis".data, "signupfirst_dis".data,
   "cac_incl_branding".data, "first_disbursement_all".data,
   "fsfirst_disb".data, "first_disbursement_fidobiz".data]

/-- One row of the assignment of NaN to a named column: every cell lying
under an occurrence of the label is overwritten with the missing marker. -/
def set_null_row (cols : List Cell) (name : Str) (r : List Cell) : List Cell :=
  match cols, r with
  | c :: cs, v :: vs => (if c = some name then none else v) :: set_null_row cs name vs
  | _, r => r

/-- df brackets assignment of NaN to a named column: overwrites the column
in place when the label exists, otherwise appends a new all-NaN column at
the right edge. -/
def set_null_column (df : DataFrame) (name : Str) : DataFrame :=
  if some name ∈ df.cols then
    { cols := df.cols, rows := df.rows.map (fun r => set_null_row df.cols name r) }
  else
    { cols := df.cols ++ [some name], rows := df.rows.map (fun r => r ++ [none]) }

/-- Lines 101 to 136 of transform_csv, after the month and year have been
extracted: sort_index, transpose, promotion of the first row to column
labels, drop of that row, the two literal renames, column cleaning, the
report_day relabelling of the first column, the date conversion of its
cells, and the six placeholder assignments.  The month argument mirrors
the month variable of the source, which is bound there and never read. -/
def reshape (df : DataFrame) (month year : Int) : Except PyError DataFrame :=
  match transpose_rows df.cols.length (sort_index_rows df.rows) with
  | [] => .error .indexError
  | hdr :: rest =>
      match (hdr.map rename_label).map clean_label with
      | [] => .error .valueError
      | _ :: tailCols =>
          if some "report_day".data ∈ tailCols then .error .valueError
          else
            match convert_report_day year (rest.map (fun r => r.getD 0 none)) with
            | none => .error .valueError
            | some newDays =>
                .ok (placeholder_columns.foldl set_null_column
                  { cols := some "report_day".data :: tailCols,
                    rows := List.zipWith (fun c r => c :: r.drop 1) newDays rest })

/-- os.path.basename over forward slashes, as used on the csv path. -/
def pyBasename (p : Str) : Str :=
  (splitChar '/' p).getLastD []

/-- CVTransformer.transform_csv.  The pd.read_csv load is modelled by
passing the loaded frame alongside the path; the date inference runs on
the basename of the path and its errors propagate, then the reshape
pipeline runs with the inferred month and year. -/
def transform_csv (csv_path : Str) (df : DataFrame) : Except PyError DataFrame :=
  match extract_month_year_from_filename (pyBasename csv_path) with
  | .error e => .error e
  | .ok my => reshape df my.1 my.2

/-- The filesystem seen by CVTransformer: either the data folder does not
exist, or it lists named entries each carrying its loaded table. -/
abbrev Listing := Option (List (Str × DataFrame))

/-- CVTransformer.get_csv_files: a missing folder yields the empty list
without error; otherwise entries whose name ends in ".csv" are kept in
listing order and joined with the folder name. -/
def get_csv_files (data_folder : Str) (listing : Listing) : List (Str × DataFrame) :=
  match listing with
  | none => []
  | some entries =>
      (entries.filter (fun e => ".csv".data.isSuffixOf e.1)).map
        (fun e => (data_folder ++ ('/' :: e.1), e.2))

/-- Column labels of pd.concat with the default outer join: the labels of
the first frame, then each later label not seen before, in order of
appearance (sort is off by default). -/
def concat_cols (dfs : List DataFrame) : List Cell :=
  dfs.foldl (fun acc d => acc ++ d.cols.filter (fun c => !(acc.contains c))) []

/-- Alignment of one row to the combined label list: each combined label
takes the cell of the first matching source column, and labels absent
from the source frame are filled with the missing marker. -/
def align_row (srcCols : List Cell) (allCols : List Cell) (r : List Cell) : List Cell :=
  allCols.map (fun c =>
    match srcCols.indexOf? c with
    | some i => r.getD i none
    | none => none)

/-- pd.concat of the successful frames with ignore_index: rows of every
frame in order, aligned to the combined labels, with the fresh RangeIndex
0..N-1 carried positionally. -/
def concat_ignore_index (dfs : List DataFrame) : DataFrame :=
  let cols := concat_cols dfs
  { cols := cols,
    rows := (dfs.map (fun d => d.rows.map (align_row d.cols cols))).flatten }

/-- CVTransformer.transform_all_files: discovers the csv files, raises
FileNotFoundError when there are none, transforms each file with every
per-file exception caught and the file skipped, raises ValueError when no
file succeeded, and otherwise concatenates the successes with the row
index reset. -/
def transform_all_files (data_folder : Str) (listing : Listing) : Except DriverError DataFrame :=
  let csv_files := get_csv_files data_folder listing
  if csv_files.isEmpty then .error .fileNotFoundError
  else
    let transformed := csv_files.filterMap (fun f => (transform_csv f.1 f.2).toOption)
    if transformed.isEmpty then .error .valueError
    else .ok (concat_ignore_index transformed)

/-- A character surviving the cleaning pipeline: not an ASCII uppercase
letter (codes 65 to 90), not a space, not one of plus, hyphen, dot,
slash. -/
def CleanChar (c : Char) : Prop :=
  ¬(65 ≤ c.toNat ∧ c.toNat ≤ 90) ∧ c ≠ ' ' ∧ c ∉ strippedChars

instance (c : Char) : Decidable (CleanChar c) := by
  unfold CleanChar
  infer_instance

/-- Rectangularity: every row has one cell per column label.  Loaded
frames are rectangular and every step of the pipeline preserves that. -/
def Rect (d : DataFrame) : Prop :=
  ∀ r ∈ d.rows, r.length = d.cols.length

/-- The named column exists and every cell lying under an occurrence of
its label is the missing marker. -/
def NullAt (d : DataFrame) (p : Str) : Prop :=
  some p ∈ d.cols ∧
  ∀ r ∈ d.rows, ∀ i : Nat, d.cols[i]? = some (some p) → r.getD i none = none

/-- A frame whose reshape succeeds: the first loaded row carries the day
labels, so the transposed first column parses under the month-day
format. -/
def sampleFrame : DataFrame :=
  { cols := [some "M".data, some "a".data, some "b".data],
    rows := [[some "Days".data, some "June 1".data, some "June 2".data],
             [some "Installs".data, some "3".data, some "4".data]] }

/-- A frame exercising the overwrite path of the placeholder assignment:
its second metric cleans to the placeholder name fsfirst_disb. -/
def overwriteFrame : DataFrame :=
  { cols := [some "M".data, some "a".data],
    rows := [[some "Days".data, some "June 1".data],
             [some "Fsfirst Disb".data, some "9".data]] }

/-- A frame whose metric name carries uppercase, spaces and stripped
characters, exercising every cleaning step. -/
def dirtyNameFrame : DataFrame :=
  { cols := [some "M".data, some "d".data],
    rows := [[some "Days".data, some "June 1".data],
             [some "A+B.C/ D".data, some "7".data]] }

/-- The transform output of overwriteFrame, written out. -/
def overwriteFrameOut : DataFrame :=
  { cols := [some "report_day".data, some "fsfirst_disb".data,
       some "new_install_first_dis".data, some "signupfirst_dis".data,
       some "cac_incl_branding".data, some "first_disbursement_all".data,
       some "first_disbursement_fidobiz".data],
    rows := [[some "2025-06-01".data, none, none, none, none, none, none]] }

/-- The transform output of dirtyNameFrame, written out. -/
def dirtyNameFrameOut : DataFrame :=
  { cols := [some "report_day".data, some "abc_d".data,
       some "new_install_first_dis".data, some "signupfirst_dis".data,
       some "cac_incl_branding".data, some "first_disbursement_all".data,
       some "fsfirst_disb".data, some "first_disbursement_fidobiz".data],
    rows := [[some "2025-06-01".data, some "7".data,
              none, none, none, none, none, none]] }

/-- A listing with one well-formed file, one structurally malformed file
(no columns, so the positional access of the promotion step raises), and
one entry that is not a csv file. -/
def mixedListing : Listing :=
  some [("Report.csv".data, sampleFrame),
        ("bad.csv".data, { cols := [], rows := [] }),
        ("notes.txt".data, sampleFrame)]

/-! ## Lemmas: sort_index on the loaded RangeIndex is the identity -/

theorem insertByIdx_enumFrom (x : List Cell) (n : Nat) (l : List (List Cell)) :
    insertByIdx (n, x) (List.enumFrom (n + 1) l) = (n, x) :: List.enumFrom (n + 1) l := by
  cases l with
  | nil => rfl
  | cons y ys => simp [List.enumFrom, insertByIdx, Nat.le_succ]

theorem sortByIdx_enumFrom (l : List (List Cell)) (n : Nat) :
    sortByIdx (List.enumFrom n l) = List.enumFrom n l := by
  induction l generalizing n with
  | nil => rfl
  | cons x xs ih => simp only [List.enumFrom, sortByIdx, ih, insertByIdx_enumFrom]

/-- The rows of a loaded frame carry the ascending RangeIndex 0..n-1, so
ordering them by index label leaves them unchanged. -/
theorem sort_index_rows_id (rows : List (List Cell)) : sort_index_rows rows = rows := by
  unfold sort_index_rows
  rw [show rows.enum = List.enumFrom 0 rows from rfl, sortByIdx_enumFrom]
  exact List.enumFrom_map_snd 0 rows

/-! ## Lemmas: the column cleaning steps -/

theorem pyLowerChar_not_upper (c : Char) :
    ¬(65 ≤ (pyLowerChar c).toNat ∧ (pyLowerChar c).toNat ≤ 90) := by
  unfold pyLowerChar
  split
  case isTrue h =>
    obtain ⟨h1, h2⟩ := h
    intro hc
    interval_cases h : c.toNat <;> (revert hc; decide)
  case isFalse h => exact h

theorem pyLowerChar_id_of_not_upper (c : Char)
    (h : ¬(65 ≤ c.toNat ∧ c.toNat ≤ 90)) : pyLowerChar c = c := by
  unfold pyLowerChar
  simp [h]

theorem spaceToUnderscore_ne_space (c : Char) : spaceToUnderscore c ≠ ' ' := by
  unfold spaceToUnderscore
  split
  · decide
  · assumption

theorem spaceToUnderscore_id_of_ne (c : Char) (h : c ≠ ' ') : spaceToUnderscore c = c := by
  unfold spaceToUnderscore
  simp [h]

theorem spaceToUnderscore_not_upper (c : Char)
    (h : ¬(65 ≤ c.toNat ∧ c.toNat ≤ 90)) :
    ¬(65 ≤ (spaceToUnderscore c).toNat ∧ (spaceToUnderscore c).toNat ≤ 90) := by
  unfold spaceToUnderscore
  split
  · decide
  · exact h

/-- Every character of a cleaned column name is lower-case (no ASCII
uppercase), not a space, and none of the stripped characters. -/
theorem clean_column_name_chars (s : Str) :
    ∀ c ∈ clean_column_name s, CleanChar c := by
  intro c hc
  unfold clean_column_name at hc
  obtain ⟨hmem, hfilter⟩ := List.mem_filter.mp hc
  obtain ⟨c1, hc1, rfl⟩ := List.mem_map.mp hmem
  obtain ⟨c0, _, rfl⟩ := List.mem_map.mp hc1
  refine ⟨spaceToUnderscore_not_upper _ (pyLowerChar_not_upper c0),
    spaceToUnderscore_ne_space _, ?_⟩
  simpa using hfilter

/-! ## Claim theorems C1, C2 -/

/-- C1: refuted on the code as written.  On the documented naming
convention the 4th segment reads "June 2025 Overview.csv", and the source
takes its token 0 as the year and token 1 as the month, so the int
conversion of "June" raises ValueError instead of returning (6, 2025).
This evaluation exhibits the failure on the exact example filename of the
source comment. -/
theorem extract_raises_on_convention_filename :
    extract_month_year_from_filename
      "Ghana - Marketing_Growth 360 Report - 2025 - June 2025 Overview.csv".data
      = .error .valueError := by decide

/-- C2: refuted on the code as written.  For a wide table with metric rows
"Cost Growth" and "Installs" and day columns "June 1" and "June 2", and a
filename whose inferred date is (6, 2025), the transpose leaves the day
labels in the row index, so the report_day relabelling hits the first
metric column (the cleaned cost_digital) and to_datetime is applied to
the metric values "10" and "20", raising ValueError rather than
producing the claimed LongTable. -/
theorem transform_csv_raises_on_wide_table :
    extract_month_year_from_filename "x - y - z - 2025 June Overview.csv".data
      = .ok (6, 2025) ∧
    transform_csv "x - y - z - 2025 June Overview.csv".data
      { cols := [some "Metric".data, some "June 1".data, some "June 2".data],
        rows := [[some "Cost Growth".data, some "10".data, some "20".data],
                 [some "Installs".data, some "30".data, some "40".data]] }
      = .error .valueError := by decide

/-! ## Claim theorems C6 -/

/-- C6 counterexample: a filename with four segments whose designated year
token "2025" is numeric, yet the function raises: the 4th segment has no
second space-token, so fetching the month token raises IndexError before
the year is ever parsed.  This falsifies the claimed if-and-only-if. -/
theorem extract_raises_despite_numeric_year :
    extract_month_year_from_filename "a - b - c - 2025".data = .error .indexError ∧
    pyInt "2025".data = some 2025 := by decide

/-- C6 amended: with at least 4 " - "-segments, the function raises
IndexError exactly when the 4th segment has fewer than two space-tokens,
and otherwise raises ValueError exactly when the first space-token is not
an integer numeral; with two tokens present, an unrecognized month token
yields month 1 through the lookup default, and fewer than 4 segments
yields (1, 2025) without raising. -/
theorem extract_month_year_characterization (f : Str) :
    ((splitDash f).length < 4 → extract_month_year_from_filename f = .ok (1, 2025))
  ∧ (∀ a b c seg rest, splitDash f = a :: b :: c :: seg :: rest →
      (((splitChar ' ' seg)[1]? = none →
          extract_month_year_from_filename f = .error .indexError)
       ∧ (∀ mp, (splitChar ' ' seg)[1]? = some mp →
          ((pyInt ((splitChar ' ' seg).headD []) = none →
              extract_month_year_from_filename f = .error .valueError)
           ∧ (∀ y, pyInt ((splitChar ' ' seg).headD []) = some y →
              extract_month_year_from_filename f =
                .ok ((month_map.lookup mp).getD 1, y)))))) := by
  constructor
  · intro hlen
    unfold extract_month_year_from_filename
    rcases hs : splitDash f with _ | ⟨a, _ | ⟨b, _ | ⟨c, _ | ⟨seg, rest⟩⟩⟩⟩ <;>
      simp_all <;> omega
  · intro a b c seg rest hs
    refine ⟨?_, ?_⟩
    · intro h1
      unfold extract_month_year_from_filename
      rw [hs]
      simp [h1]
    · intro mp hmp
      refine ⟨?_, ?_⟩
      · intro hy
        unfold extract_month_year_from_filename
        rw [hs]
        rw [List.headD_eq_head?_getD] at hy
        simp [hmp, hy]
      · intro y hy
        unfold extract_month_year_from_filename
        rw [hs]
        rw [List.headD_eq_head?_getD] at hy
        simp [hmp, hy]

/-- C6 amended, witness: the characterization applied at concrete
filenames exercising the default branch, the unknown-month branch and the
non-numeric-year branch. -/
theorem extract_month_year_characterization_witness :
    extract_month_year_from_filename "plain.csv".data = .ok (1, 2025) ∧
    extract_month_year_from_filename "a - b - c - 2025 Xyz tail.csv".data = .ok (1, 2025) ∧
    extract_month_year_from_filename "a - b - c - June 2025 x.csv".data
      = .error .valueError := by
  refine ⟨(extract_month_year_characterization "plain.csv".data).1 (by decide), ?_, ?_⟩
  · exact (((extract_month_year_characterization "a - b - c - 2025 Xyz tail.csv".data).2
      "a".data "b".data "c".data "2025 Xyz tail.csv".data [] (by decide)).2
      "Xyz".data (by decide)).2 2025 (by decide)
  · exact (((extract_month_year_characterization "a - b - c - June 2025 x.csv".data).2
      "a".data "b".data "c".data "June 2025 x.csv".data [] (by decide)).2
      "2025".data (by decide)).1 (by decide)

/-! ## Claim theorems C8, C9, C10 -/

/-- C8 counterexample: two wide tables differing only in the order of
their two metric rows reshape to different results, so the first step
does not sort rows by metric name. -/
theorem reshape_row_order_sensitive :
    transform_csv "g.csv".data
      { cols := [some "M".data, some "d1".data],
        rows := [[some "Alpha".data, some "June 1".data],
                 [some "Beta".data, some "June 2".data]] }
    ≠ transform_csv "g.csv".data
      { cols := [some "M".data, some "d1".data],
        rows := [[some "Beta".data, some "June 2".data],
                 [some "Alpha".data, some "June 1".data]] } := by decide

/-- C8 amended: the first step of reshape is sort_index, which orders the
rows by their integer index labels 0..n-1; on a loaded frame these are
already ascending, so the rows keep their original order, and reshaping
is sensitive to the order of the metric rows, as the two permuted tables
show. -/
theorem reshape_sort_index_is_noop :
    (∀ rows : List (List Cell), sort_index_rows rows = rows) ∧
    transform_csv "g.csv".data
      { cols := [some "M".data, some "d1".data],
        rows := [[some "Alpha".data, some "June 1".data],
                 [some "Beta".data, some "June 2".data]] }
    ≠ transform_csv "g.csv".data
      { cols := [some "M".data, some "d1".data],
        rows := [[some "Beta".data, some "June 2".data],
                 [some "Alpha".data, some "June 1".data]] } :=
  ⟨sort_index_rows_id, by decide⟩

/-- C9: the column-name normalization (lower-case, then space to
underscore, then strip plus, hyphen, dot, slash) is idempotent. -/
theorem clean_column_name_idempotent (s : Str) :
    clean_column_name (clean_column_name s) = clean_column_name s := by
  have h1 : (clean_column_name s).map pyLowerChar = clean_column_name s := by
    have := List.map_congr_left
      (fun c hc => pyLowerChar_id_of_not_upper c ((clean_column_name_chars s c hc).1))
    simpa using this
  have h2 : (clean_column_name s).map spaceToUnderscore = clean_column_name s := by
    have := List.map_congr_left
      (fun c hc => spaceToUnderscore_id_of_ne c ((clean_column_name_chars s c hc).2.1))
    simpa using this
  have h3 : (clean_column_name s).filter (fun c => !(strippedChars.contains c))
      = clean_column_name s := by
    apply List.filter_eq_self.mpr
    intro c hc
    simpa using (clean_column_name_chars s c hc).2.2
  show (((clean_column_name s).map pyLowerChar).map spaceToUnderscore).filter
      (fun c => !(strippedChars.contains c)) = clean_column_name s
  rw [h1, h2, h3]

/-- C10: the inferred month is dead in the transform.  Two paths whose
filenames infer the same year, with any inferred months, transform any
fixed frame identically, because only the year reaches the emitted
report_day strings. -/
theorem transform_csv_ignores_month (p1 p2 : Str) (df : DataFrame) (m1 m2 y : Int)
    (h1 : extract_month_year_from_filename (pyBasename p1) = .ok (m1, y))
    (h2 : extract_month_year_from_filename (pyBasename p2) = .ok (m2, y)) :
    transform_csv p1 df = transform_csv p2 df := by
  unfold transform_csv
  rw [h1, h2]
  rfl

/-- C10 witness: two filenames inferring months 6 and 2 with the same
year 2025 transform a concrete frame to the same result. -/
theorem transform_csv_ignores_month_witness :
    transform_csv "a - b - c - 2025 June x.csv".data
      { cols := [some "M".data, some "a".data],
        rows := [[some "Days".data, some "June 1".data]] }
    = transform_csv "a - b - c - 2025 February x.csv".data
      { cols := [some "M".data, some "a".data],
        rows := [[some "Days".data, some "June 1".data]] } :=
  transform_csv_ignores_month _ _ _ 6 2 2025 (by decide) (by decide)

/-! ## Lemmas: the placeholder column assignments -/

theorem set_null_row_length (cols : List Cell) (name : Str) (r : List Cell) :
    (set_null_row cols name r).length = r.length := by
  induction cols generalizing r with
  | nil => cases r <;> rfl
  | cons c cs ih =>
    cases r with
    | nil => rfl
    | cons v vs => simp [set_null_row, ih]

theorem set_null_row_getD (cols : List Cell) (name : Str) (r : List Cell) (i : Nat) :
    (set_null_row cols name r).getD i none
      = if cols[i]? = some (some name) then none else r.getD i none := by
  induction cols generalizing r i with
  | nil =>
    cases r <;> simp [set_null_row]
  | cons c cs ih =>
    cases r with
    | nil =>
      simp only [set_null_row]
      split <;> simp
    | cons v vs =>
      cases i with
      | zero => by_cases hc : c = some name <;> simp [set_null_row, hc]
      | succ n =>
        simp only [set_null_row, List.getD_cons_succ, List.getElem?_cons_succ]
        exact ih vs n

/-- Appending the missing marker never changes a positional read with the
missing marker as default. -/
theorem getD_append_none (r : List Cell) (i : Nat) :
    (r ++ [none]).getD i none = r.getD i none := by
  induction r generalizing i with
  | nil => cases i <;> simp
  | cons v vs ih =>
    cases i with
    | zero => simp
    | succ n =>
      simp only [List.cons_append, List.getD_cons_succ]
      exact ih n

theorem rect_set_null_column (d : DataFrame) (name : Str) (hd : Rect d) :
    Rect (set_null_column d name) := by
  unfold set_null_column
  split
  · intro r hr
    simp only at hr ⊢
    obtain ⟨r0, hr0, rfl⟩ := List.mem_map.mp hr
    simp [set_null_row_length, hd r0 hr0]
  · intro r hr
    simp only at hr ⊢
    obtain ⟨r0, hr0, rfl⟩ := List.mem_map.mp hr
    simp [hd r0 hr0]

theorem null_at_set_null_column_self (d : DataFrame) (p : Str) (hd : Rect d) :
    NullAt (set_null_column d p) p := by
  unfold set_null_column NullAt
  split
  case isTrue hmem =>
    refine ⟨hmem, ?_⟩
    intro r hr i hi
    obtain ⟨r0, hr0, rfl⟩ := List.mem_map.mp hr
    rw [set_null_row_getD]
    simp only at hi
    simp [hi]
  case isFalse hmem =>
    refine ⟨by simp, ?_⟩
    intro r hr i hi
    obtain ⟨r0, hr0, rfl⟩ := List.mem_map.mp hr
    simp only at hi
    rw [getD_append_none]
    by_cases hir : i < d.cols.length
    · exfalso
      apply hmem
      rw [List.getElem?_append] at hi
      rw [if_pos hir] at hi
      obtain ⟨hlt, heq⟩ := List.getElem?_eq_some.mp hi
      exact heq ▸ List.getElem_mem hlt
    · have hlen : d.cols.length ≤ i := Nat.le_of_not_lt hir
      have hrlen : r0.length ≤ i := (hd r0 hr0) ▸ hlen
      simp [List.getD_eq_getElem?_getD, List.getElem?_eq_none hrlen]

theorem null_at_set_null_column_other (d : DataFrame) (p q : Str) (h : NullAt d p) :
    NullAt (set_null_column d q) p := by
  obtain ⟨hmem, hnull⟩ := h
  unfold set_null_column NullAt
  split
  case isTrue hq =>
    refine ⟨hmem, ?_⟩
    intro r hr i hi
    obtain ⟨r0, hr0, rfl⟩ := List.mem_map.mp hr
    simp only at hi
    rw [set_null_row_getD]
    split
    · rfl
    · exact hnull r0 hr0 i hi
  case isFalse hq =>
    refine ⟨List.mem_append_left _ hmem, ?_⟩
    intro r hr i hi
    obtain ⟨r0, hr0, rfl⟩ := List.mem_map.mp hr
    simp only at hi
    rw [getD_append_none]
    by_cases hir : i < d.cols.length
    · rw [List.getElem?_append] at hi
      rw [if_pos hir] at hi
      exact hnull r0 hr0 i hi
    · exfalso
      have hlen : d.cols.length ≤ i := Nat.le_of_not_lt hir
      rw [List.getElem?_append_right hlen] at hi
      rcases hsub : i - d.cols.length with _ | n
      · rw [hsub] at hi
        simp at hi
        apply hq
        rw [hi]
        exact hmem
      · rw [hsub] at hi
        simp at hi

theorem rect_foldl_set_null (names : List Str) (d : DataFrame) (hd : Rect d) :
    Rect (names.foldl set_null_column d) := by
  induction names generalizing d with
  | nil => exact hd
  | cons q ns ih => exact ih _ (rect_set_null_column d q hd)

theorem null_at_foldl_preserve (names : List Str) (d : DataFrame) (p : Str)
    (h : NullAt d p) : NullAt (names.foldl set_null_column d) p := by
  induction names generalizing d with
  | nil => exact h
  | cons q ns ih => exact ih _ (null_at_set_null_column_other d p q h)

theorem null_at_foldl (names : List Str) (d : DataFrame) (p : Str)
    (hrect : Rect d) (hp : p ∈ names) :
    NullAt (names.foldl set_null_column d) p := by
  induction names generalizing d with
  | nil => cases hp
  | cons q ns ih =>
    rcases List.mem_cons.mp hp with rfl | hp2
    · exact null_at_foldl_preserve ns _ p (null_at_set_null_column_self d p hrect)
    · exact ih _ (rect_set_null_column d q hrect) hp2

theorem mem_cols_set_null_column {c : Cell} (d : DataFrame) (name : Str)
    (h : c ∈ (set_null_column d name).cols) : c ∈ d.cols ∨ c = some name := by
  unfold set_null_column at h
  split at h
  · exact Or.inl h
  · simp only at h
    rcases List.mem_append.mp h with h2 | h2
    · exact Or.inl h2
    · simp at h2
      exact Or.inr h2

theorem mem_cols_foldl {c : Cell} (names : List Str) (d : DataFrame)
    (h : c ∈ (names.foldl set_null_column d).cols) :
    c ∈ d.cols ∨ ∃ n ∈ names, c = some n := by
  induction names generalizing d with
  | nil => exact Or.inl h
  | cons q ns ih =>
    rcases ih _ h with h2 | ⟨n, hn, rfl⟩
    · rcases mem_cols_set_null_column d q h2 with h3 | h3
      · exact Or.inl h3
      · exact Or.inr ⟨q, by simp, h3⟩
    · exact Or.inr ⟨n, by simp [hn], rfl⟩

/-! ## Lemmas: shapes through transpose, date conversion and zipWith -/

theorem transpose_rows_row_length {x : List Cell} {n : Nat} {rows : List (List Cell)}
    (h : x ∈ transpose_rows n rows) : x.length = rows.length := by
  unfold transpose_rows at h
  obtain ⟨i, _, rfl⟩ := List.mem_map.mp h
  simp

theorem convert_report_day_length (y : Int) (l l2 : List Cell)
    (h : convert_report_day y l = some l2) : l2.length = l.length := by
  induction l generalizing l2 with
  | nil =>
    unfold convert_report_day at h
    cases h
    rfl
  | cons c cs ih =>
    unfold convert_report_day at h
    split at h
    next c2 cs2 h1 h2 =>
      cases h
      simp [ih cs2 h2]
    next => cases h

theorem mem_zipWith {α β γ : Type} {f : α → β → γ} {x : γ} :
    ∀ {as : List α} {bs : List β}, x ∈ List.zipWith f as bs →
      ∃ a ∈ as, ∃ b ∈ bs, x = f a b := by
  intro as
  induction as with
  | nil => intro bs h; simp [List.zipWith] at h
  | cons a as ih =>
    intro bs h
    cases bs with
    | nil => simp [List.zipWith] at h
    | cons b bs =>
      simp only [List.zipWith, List.mem_cons] at h
      rcases h with h | h
      · exact ⟨a, by simp, b, by simp, h⟩
      · obtain ⟨a1, ha, b1, hb, hx⟩ := ih h
        exact ⟨a1, by simp [ha], b1, by simp [hb], hx⟩

/-! ## Lemma: structure of a successful reshape -/

theorem reshape_ok_inv {df : DataFrame} {m y : Int} {res : DataFrame}
    (h : reshape df m y = .ok res) :
    ∃ hdr rest tailCols newDays,
      transpose_rows df.cols.length (sort_index_rows df.rows) = hdr :: rest ∧
      (∃ c0, (hdr.map rename_label).map clean_label = c0 :: tailCols) ∧
      some "report_day".data ∉ tailCols ∧
      convert_report_day y (rest.map (fun r => r.getD 0 none)) = some newDays ∧
      res = placeholder_columns.foldl set_null_column
        { cols := some "report_day".data :: tailCols,
          rows := List.zipWith (fun c r => c :: r.drop 1) newDays rest } := by
  unfold reshape at h
  split at h
  next => cases h
  next hdr rest ht =>
    split at h
    next => cases h
    next c0 tailCols hc =>
      split at h
      next => cases h
      next hdup =>
        split at h
        next => cases h
        next newDays hcv =>
          exact ⟨hdr, rest, tailCols, newDays, ht, ⟨c0, hc⟩, hdup, hcv,
            (Except.ok.inj h).symm⟩

/-- Rectangularity of the frame reshape builds before the placeholder
assignments. -/
theorem reshape_base_rect {df : DataFrame} {hdr : List Cell}
    {rest : List (List Cell)} {tailCols newDays : List Cell}
    (ht : transpose_rows df.cols.length (sort_index_rows df.rows) = hdr :: rest)
    (hc : ∃ c0, (hdr.map rename_label).map clean_label = c0 :: tailCols)
    (hcv : convert_report_day y (rest.map (fun r => r.getD 0 none)) = some newDays) :
    Rect { cols := some "report_day".data :: tailCols,
           rows := List.zipWith (fun c r => c :: r.drop 1) newDays rest } := by
  obtain ⟨c0, hc⟩ := hc
  intro r hr
  simp only at hr ⊢
  obtain ⟨cnew, _, r0, hr0, rfl⟩ := mem_zipWith hr
  have hr0len : r0.length = (sort_index_rows df.rows).length :=
    transpose_rows_row_length (ht ▸ List.mem_cons_of_mem hdr hr0)
  have hhdrlen : hdr.length = (sort_index_rows df.rows).length :=
    transpose_rows_row_length (ht ▸ List.mem_cons_self hdr rest)
  have hcols2len : hdr.length = tailCols.length + 1 := by
    have := congrArg List.length hc
    simpa using this
  simp only [List.length_cons, List.length_drop]
  omega

/-! ## Claim theorems C4, C5, C7, C3 -/

/-- C4: transform_all_files raises FileNotFoundError exactly when
discovery yields no csv file, including for a missing folder, whose
discovery is empty without error; and when candidates exist but every
transform fails, it raises ValueError instead of returning a table. -/
theorem transform_all_files_run_errors (data_folder : Str) (listing : Listing) :
    (get_csv_files data_folder listing = [] →
      transform_all_files data_folder listing = .error .fileNotFoundError)
  ∧ get_csv_files data_folder none = []
  ∧ (get_csv_files data_folder listing ≠ [] →
      (∀ f ∈ get_csv_files data_folder listing, (transform_csv f.1 f.2).toOption = none) →
      transform_all_files data_folder listing = .error .valueError) := by
  refine ⟨?_, rfl, ?_⟩
  · intro h
    unfold transform_all_files
    simp [h]
  · intro hne hall
    unfold transform_all_files
    have hfm : (get_csv_files data_folder listing).filterMap
        (fun f => (transform_csv f.1 f.2).toOption) = [] :=
      List.filterMap_eq_nil_iff.mpr hall
    simp [List.isEmpty_iff, hne, hfm]

/-- C4 witness: a folder with only a non-csv entry raises
FileNotFoundError, a missing folder raises FileNotFoundError, and a
folder whose single csv file fails structurally raises ValueError. -/
theorem transform_all_files_run_errors_witness :
    transform_all_files "gh_data".data (some [("notes.txt".data, { cols := [], rows := [] })])
      = .error .fileNotFoundError ∧
    transform_all_files "gh_data".data none = .error .fileNotFoundError ∧
    transform_all_files "gh_data".data (some [("bad.csv".data, { cols := [], rows := [] })])
      = .error .valueError :=
  ⟨(transform_all_files_run_errors "gh_data".data
      (some [("notes.txt".data, { cols := [], rows := [] })])).1 (by decide),
   (transform_all_files_run_errors "gh_data".data none).1 (by decide),
   (transform_all_files_run_errors "gh_data".data
      (some [("bad.csv".data, { cols := [], rows := [] })])).2.2 (by decide) (by decide)⟩

/-- C5: in every successful transform output, each of the six placeholder
columns is present and holds the missing marker in every row, also when
the input already produced a column of that name (the assignment
overwrites it). -/
theorem transform_csv_placeholders_null (csv_path : Str) (df res : DataFrame)
    (h : transform_csv csv_path df = .ok res) :
    ∀ p ∈ placeholder_columns, some p ∈ res.cols ∧
      ∀ r ∈ res.rows, ∀ i : Nat, res.cols[i]? = some (some p) → r.getD i none = none := by
  intro p hp
  unfold transform_csv at h
  split at h
  next => cases h
  next my hex =>
    obtain ⟨hdr, rest, tailCols, newDays, ht, hc, hdup, hcv, rfl⟩ := reshape_ok_inv h
    exact null_at_foldl placeholder_columns _ p (reshape_base_rect ht hc hcv) hp

/-- C5 witness: the placeholder property evaluated on a concrete
successful transform whose input metric already cleans to the
placeholder name fsfirst_disb. -/
theorem transform_csv_placeholders_null_witness :
    ∃ res, transform_csv "Report.csv".data overwriteFrame = .ok res ∧
      ∀ p ∈ placeholder_columns, some p ∈ res.cols ∧
        ∀ r ∈ res.rows, ∀ i : Nat, res.cols[i]? = some (some p) → r.getD i none = none :=
  ⟨overwriteFrameOut, by decide,
   transform_csv_placeholders_null "Report.csv".data overwriteFrame
     overwriteFrameOut (by decide)⟩

/-- C7: every column label of a successful transform output that is a
string is entirely lower-case (no ASCII uppercase letter), has no space,
and carries none of the characters plus, hyphen, dot, slash. -/
theorem transform_csv_columns_clean (csv_path : Str) (df res : DataFrame)
    (h : transform_csv csv_path df = .ok res) :
    ∀ c ∈ res.cols, ∀ s, c = some s → ∀ ch ∈ s, CleanChar ch := by
  unfold transform_csv at h
  split at h
  next => cases h
  next my hex =>
    obtain ⟨hdr, rest, tailCols, newDays, ht, ⟨c0, hc⟩, hdup, hcv, rfl⟩ := reshape_ok_inv h
    intro c hcmem s hcs ch hch
    rcases mem_cols_foldl placeholder_columns _ hcmem with hbase | ⟨n, hn, rfl⟩
    · simp only at hbase
      rcases List.mem_cons.mp hbase with rfl | htail
      · obtain rfl := Option.some.inj hcs
        revert hch
        revert ch
        decide
      · have hc2 : c ∈ (hdr.map rename_label).map clean_label := by
          rw [hc]
          exact List.mem_cons_of_mem c0 htail
        obtain ⟨c1, _, rfl⟩ := List.mem_map.mp hc2
        cases c1 with
        | none => cases hcs
        | some s1 =>
          obtain rfl : clean_column_name s1 = s := Option.some.inj hcs
          exact clean_column_name_chars s1 ch hch
    · obtain rfl := Option.some.inj hcs
      revert hch
      revert ch
      fin_cases hn <;> decide

/-- C7 witness: the invariant evaluated on a concrete successful
transform whose metric name mixes uppercase, spaces and the stripped
characters. -/
theorem transform_csv_columns_clean_witness :
    ∃ res, transform_csv "Report.csv".data dirtyNameFrame = .ok res ∧
      ∀ c ∈ res.cols, ∀ s, c = some s → ∀ ch ∈ s, CleanChar ch :=
  ⟨dirtyNameFrameOut, by decide,
   transform_csv_columns_clean "Report.csv".data dirtyNameFrame
     dirtyNameFrameOut (by decide)⟩

/-- C3: whenever at least one discovered file transforms successfully,
the run returns the row-wise concatenation of exactly the successful
results, in discovery order with per-file row order preserved (each row
aligned to the combined column labels), the combined positional index
running over 0..N-1 where N is the total number of successful rows, and
failing files contribute no rows and do not abort the run. -/
theorem transform_all_files_concatenates (data_folder : Str) (listing : Listing)
    (hne : (get_csv_files data_folder listing).filterMap
        (fun f => (transform_csv f.1 f.2).toOption) ≠ []) :
    ∃ res,
      transform_all_files data_folder listing = .ok res ∧
      res.rows = (((get_csv_files data_folder listing).filterMap
          (fun f => (transform_csv f.1 f.2).toOption)).map
          (fun t => t.rows.map (align_row t.cols res.cols))).flatten ∧
      res.rows.length = (((get_csv_files data_folder listing).filterMap
          (fun f => (transform_csv f.1 f.2).toOption)).map
          (fun t => t.rows.length)).sum := by
  have hfiles : get_csv_files data_folder listing ≠ [] := by
    intro h0
    apply hne
    rw [h0]
    rfl
  refine ⟨concat_ignore_index ((get_csv_files data_folder listing).filterMap
      (fun f => (transform_csv f.1 f.2).toOption)), ?_, ?_, ?_⟩
  · unfold transform_all_files
    simp [List.isEmpty_iff, hfiles, hne]
  · rfl
  · simp only [concat_ignore_index]
    rw [List.length_flatten, List.map_map]
    apply congrArg List.sum
    apply List.map_congr_left
    intro d _
    simp

/-- C3 witness: the aggregation contract evaluated on a folder holding
one well-formed csv file, one structurally malformed csv file and one
non-csv entry; only the well-formed rows appear. -/
theorem transform_all_files_concatenates_witness :
    ∃ res,
      transform_all_files "gh_data".data mixedListing = .ok res ∧
      res.rows = (((get_csv_files "gh_data".data mixedListing).filterMap
          (fun f => (transform_csv f.1 f.2).toOption)).map
          (fun t => t.rows.map (align_row t.cols res.cols))).flatten ∧
      res.rows.length = (((get_csv_files "gh_data".data mixedListing).filterMap
          (fun f => (transform_csv f.1 f.2).toOption)).map
          (fun t => t.rows.length)).sum :=
  transform_all_files_concatenates "gh_data".data mixedListing (by decide)
